import Mathlib

/-!
Shallow embedding of the `Gestion---Escolar` school-management backend
(Django project, apps `academico` and `usuarios`) and verification of its
behavioural claims.

Modelling conventions:
* Database tables become Lean lists of records; a Django queryset filter
  becomes `List.filter` with the same predicate.
* Primary keys are `Nat`; `ForeignKey` fields hold the referenced id
  (`Option Nat` when the column is nullable).
* Dates and datetimes are unified as `Int` (days); `timezone.now()` is an
  explicit `ahora : Int` argument.
* `DecimalField` grades and percentages are `ℚ` (exact arithmetic).
* Free-text message bodies built by f-strings are elided to short fixed
  strings: no claim inspects the message text, only which notifications and
  e-mails are produced and for whom.
* A Django `ValidationError` becomes `Except.error` carrying the error list.
* A Django `FieldError` — raised when a queryset filter keyword resolves to
  no model field — also becomes `Except.error`; it aborts the call before
  any row is read or written.
-/

namespace GestionEscolar

/-- A `usuarios.models.User`: the fields the services touch. `email` is a
Django `CharField` whose falsy value is the empty string. `apoderados` is the
guardians many-to-many relation (user ids). -/
structure User where
  id : Nat
  first_name : String
  last_name : String
  email : String
  apoderados : List Nat
deriving DecidableEq

/-- An `academico.models.Curso`: `jefe_curso` is the (nullable) homeroom
teacher, `estudiantes` the enrolled-student many-to-many (user ids). -/
structure Curso where
  id : Nat
  nombre : String
  jefe_curso : Option User
  estudiantes : List Nat
deriving DecidableEq

/-- An `academico.models.AlertaTemprana` row (`models.py` line 624).
`estado` ranges over `ABIERTA / EN_SEGUIMIENTO / CERRADA`, `origen` over
`ASISTENCIA / NOTAS / DISCIPLINA / MIXTO`, `nivel_riesgo` over
`BAJO / MEDIO / ALTO`. The table has no `asignatura` column. -/
structure AlertaTemprana where
  estudiante : Nat
  curso : Option Nat
  origen : String
  descripcion : String
  nivel_riesgo : String
  estado : String
  creada_por : Option Nat
  fecha_creacion : Int
  fecha_cierre : Option Int
deriving DecidableEq

/-- A `usuarios.models.Notification` row (message text elided). -/
structure Notificacion where
  user : Nat
  title : String
  level : String
deriving DecidableEq

/-- An `academico.models.EmailQueue` row (body elided). -/
structure Email where
  destinatario : String
  asunto : String
deriving DecidableEq

/-- The notification level chosen in `enviar_notificaciones_alerta`
(`academico/services/alerta.py`). -/
def nivel_notificacion (nivel_riesgo : String) : String :=
  if nivel_riesgo == "ALTO" then "URGENT"
  else if nivel_riesgo == "MEDIO" then "WARN"
  else "INFO"

/-- `alerta.enviar_notificaciones_alerta`: notifies the homeroom teacher
(if the course has one) and queues an e-mail (if that teacher has an
e-mail address). Returns the created notifications and queued e-mails. -/
def enviar_notificaciones_alerta (alerta : AlertaTemprana) (curso : Option Curso) :
    List Notificacion × List Email :=
  let jefe_curso := match curso with
    | some c => c.jefe_curso
    | none => none
  match jefe_curso with
  | none => ([], [])
  | some jefe =>
      ([{ user := jefe.id, title := "Nueva alerta temprana",
          level := nivel_notificacion alerta.nivel_riesgo }],
       if jefe.email != "" then
         [{ destinatario := jefe.email, asunto := "Nueva alerta temprana de estudiante" }]
       else [])

/-- The column names of the real `AlertaTemprana` table
(`academico/models.py` line 624): there is no `asignatura` column. -/
def camposAlertaTemprana : List String :=
  ["id", "estudiante", "curso", "origen", "descripcion", "nivel_riesgo", "estado",
   "creada_por", "fecha_creacion", "fecha_cierre"]

/-- The model fields the keyword arguments of the dedup filter in
`crear_alerta_temprana_automatizada` must resolve to, in the order Django
resolves them; the lookup `fecha_creacion__gte` targets the column
`fecha_creacion`. -/
def camposFiltroDuplicados : List String :=
  ["estudiante", "curso", "asignatura", "origen", "estado", "fecha_creacion"]

/-- The value a successful call to `crear_alerta_temprana_automatizada`
would produce: the Python return value plus the new state of the alert
table and the notification / e-mail side effects. -/
structure CrearAlertaResult where
  retorno : Option AlertaTemprana
  alertas : List AlertaTemprana
  notificaciones : List Notificacion
  emails : List Email
deriving DecidableEq

/-- `alerta.crear_alerta_temprana_automatizada`
(`academico/services/alerta.py` lines 10-57). Its first statement builds
`AlertaTemprana.objects.filter(estudiante=.., curso=.., asignatura=..,
origen=.., estado="ABIERTA", fecha_creacion__gte=limite)`; Django resolves
every filter keyword against the model's fields before reading any row and
raises `FieldError` on the first keyword that resolves to no field.
`asignatura` is not a column of `AlertaTemprana`, so every call raises
before the dedup check, the insert and the notifications: the alert table
is never read or written. The `Except.ok` branch is unreachable for the
real field lists. -/
def crear_alerta_temprana_automatizada
    (alertas : List AlertaTemprana) (ahora : Int)
    (estudiante : User) (curso : Curso) (asignatura : Option Nat)
    (origen descripcion nivel_riesgo : String)
    (creada_por : Option Nat) (ventana_dias_sin_duplicar : Int) :
    Except String CrearAlertaResult :=
  match camposFiltroDuplicados.find?
      (fun campo => !(camposAlertaTemprana.contains campo)) with
  | some campo =>
      Except.error ("FieldError: Cannot resolve keyword " ++ campo ++ " into field")
  | none =>
      Except.ok { retorno := none, alertas := alertas, notificaciones := [], emails := [] }

/-- `alerta.cerrar_alerta` (`academico/services/alerta.py` lines 107-131):
early-returns an already CLOSED alert, otherwise sets `estado = CERRADA`,
`fecha_cierre = ahora` and notifies `usuario` when given. Returns the alert
together with the notifications created by the call. -/
def cerrar_alerta (alerta : AlertaTemprana) (usuario : Option Nat) (ahora : Int) :
    AlertaTemprana × List Notificacion :=
  if alerta.estado == "CERRADA" then (alerta, [])
  else
    match usuario with
    | some u => ({ alerta with estado := "CERRADA", fecha_cierre := some ahora },
        [{ user := u, title := "Alerta cerrada", level := "INFO" }])
    | none => ({ alerta with estado := "CERRADA", fecha_cierre := some ahora }, [])

lemma crear_alerta_siempre_error (alertas : List AlertaTemprana) (ahora : Int)
    (estudiante : User) (curso : Curso) (asignatura : Option Nat)
    (origen descripcion nivel_riesgo : String) (creada_por : Option Nat)
    (ventana_dias_sin_duplicar : Int) :
    crear_alerta_temprana_automatizada alertas ahora estudiante curso asignatura origen
        descripcion nivel_riesgo creada_por ventana_dias_sin_duplicar
      = Except.error "FieldError: Cannot resolve keyword asignatura into field" := rfl

/-- C1 (code bug): the spec's dedup/idempotence contract is unattainable —
every call to `crear_alerta_temprana_automatizada` raises `FieldError`,
because the dedup filter (and the subsequent create) name an `asignatura`
field that the `AlertaTemprana` table does not have; no call ever returns
`None`, creates an alert or sends a notification, and the alert table is
left untouched. -/
theorem crear_alerta_fielderror (alertas : List AlertaTemprana) (ahora : Int)
    (estudiante : User) (curso : Curso) (asignatura : Option Nat)
    (origen descripcion nivel_riesgo : String) (creada_por : Option Nat)
    (ventana_dias_sin_duplicar : Int) :
    crear_alerta_temprana_automatizada alertas ahora estudiante curso asignatura origen
        descripcion nivel_riesgo creada_por ventana_dias_sin_duplicar
      = Except.error "FieldError: Cannot resolve keyword asignatura into field" :=
  crear_alerta_siempre_error alertas ahora estudiante curso asignatura origen
    descripcion nivel_riesgo creada_por ventana_dias_sin_duplicar

/-- C6: `cerrar_alerta` on an already CLOSED alert returns it unchanged with
no notification; and for any alert, a second close after a first one leaves
the closed alert (state and `fecha_cierre` included) exactly as the first
close left it, again with no notification. -/
theorem cerrar_alerta_idempotente (alerta : AlertaTemprana) (usuario usuario2 : Option Nat)
    (ahora ahora2 : Int) (h : alerta.estado = "CERRADA") :
    cerrar_alerta alerta usuario ahora = (alerta, []) ∧
    (∀ b : AlertaTemprana,
      cerrar_alerta (cerrar_alerta b usuario ahora).1 usuario2 ahora2
        = ((cerrar_alerta b usuario ahora).1, [])) := by
  constructor
  · simp [cerrar_alerta, h]
  · intro b
    by_cases hb : b.estado = "CERRADA"
    · simp [cerrar_alerta, hb]
    · have hb' : (b.estado == "CERRADA") = false := by
        simp [hb]
      cases usuario with
      | none => simp [cerrar_alerta, hb']
      | some u => simp [cerrar_alerta, hb']

/-- C6 witness: closing a concrete already-closed alert is a no-op. -/
theorem cerrar_alerta_idempotente_witness :
    (AlertaTemprana.estado ⟨1, some 2, "NOTAS", "d", "MEDIO", "CERRADA", none, 0,
        some 3⟩ = "CERRADA") ∧
    (cerrar_alerta ⟨1, some 2, "NOTAS", "d", "MEDIO", "CERRADA", none, 0, some 3⟩
        (some 9) 7
      = (⟨1, some 2, "NOTAS", "d", "MEDIO", "CERRADA", none, 0, some 3⟩, []) ∧
    (∀ b : AlertaTemprana,
      cerrar_alerta (cerrar_alerta b (some 9) 7).1 none 8
        = ((cerrar_alerta b (some 9) 7).1, []))) :=
  ⟨by decide,
   cerrar_alerta_idempotente ⟨1, some 2, "NOTAS", "d", "MEDIO", "CERRADA", none, 0,
     some 3⟩ (some 9) none 7 8 (by decide)⟩

/-- C10: closing a not-yet-closed alert modifies only `estado` and
`fecha_cierre`; every other field of the alert is unchanged. -/
theorem cerrar_alerta_frame (alerta : AlertaTemprana) (usuario : Option Nat) (ahora : Int)
    (h : alerta.estado ≠ "CERRADA") :
    (cerrar_alerta alerta usuario ahora).1.estudiante = alerta.estudiante ∧
    (cerrar_alerta alerta usuario ahora).1.curso = alerta.curso ∧
    (cerrar_alerta alerta usuario ahora).1.origen = alerta.origen ∧
    (cerrar_alerta alerta usuario ahora).1.descripcion = alerta.descripcion ∧
    (cerrar_alerta alerta usuario ahora).1.nivel_riesgo = alerta.nivel_riesgo ∧
    (cerrar_alerta alerta usuario ahora).1.creada_por = alerta.creada_por ∧
    (cerrar_alerta alerta usuario ahora).1.fecha_creacion = alerta.fecha_creacion ∧
    (cerrar_alerta alerta usuario ahora).1.estado = "CERRADA" ∧
    (cerrar_alerta alerta usuario ahora).1.fecha_cierre = some ahora := by
  have h' : (alerta.estado == "CERRADA") = false := by
    simp [h]
  cases usuario with
  | none => simp [cerrar_alerta, h']
  | some u => simp [cerrar_alerta, h']

/-- C10 witness: closing a concrete OPEN alert changes only the state and
the closing date. -/
theorem cerrar_alerta_frame_witness :
    (AlertaTemprana.estado ⟨1, some 2, "ASISTENCIA", "d", "ALTO", "ABIERTA",
        some 4, 5, none⟩ ≠ "CERRADA") ∧
    ((cerrar_alerta ⟨1, some 2, "ASISTENCIA", "d", "ALTO", "ABIERTA", some 4, 5,
        none⟩ (some 9) 7).1.estudiante = 1 ∧
     (cerrar_alerta ⟨1, some 2, "ASISTENCIA", "d", "ALTO", "ABIERTA", some 4, 5,
        none⟩ (some 9) 7).1.curso = some 2 ∧
     (cerrar_alerta ⟨1, some 2, "ASISTENCIA", "d", "ALTO", "ABIERTA", some 4, 5,
        none⟩ (some 9) 7).1.origen = "ASISTENCIA" ∧
     (cerrar_alerta ⟨1, some 2, "ASISTENCIA", "d", "ALTO", "ABIERTA", some 4, 5,
        none⟩ (some 9) 7).1.descripcion = "d" ∧
     (cerrar_alerta ⟨1, some 2, "ASISTENCIA", "d", "ALTO", "ABIERTA", some 4, 5,
        none⟩ (some 9) 7).1.nivel_riesgo = "ALTO" ∧
     (cerrar_alerta ⟨1, some 2, "ASISTENCIA", "d", "ALTO", "ABIERTA", some 4, 5,
        none⟩ (some 9) 7).1.creada_por = some 4 ∧
     (cerrar_alerta ⟨1, some 2, "ASISTENCIA", "d", "ALTO", "ABIERTA", some 4, 5,
        none⟩ (some 9) 7).1.fecha_creacion = 5 ∧
     (cerrar_alerta ⟨1, some 2, "ASISTENCIA", "d", "ALTO", "ABIERTA", some 4, 5,
        none⟩ (some 9) 7).1.estado = "CERRADA" ∧
     (cerrar_alerta ⟨1, some 2, "ASISTENCIA", "d", "ALTO", "ABIERTA", some 4, 5,
        none⟩ (some 9) 7).1.fecha_cierre = some 7) :=
  ⟨by decide,
   cerrar_alerta_frame ⟨1, some 2, "ASISTENCIA", "d", "ALTO", "ABIERTA", some 4, 5,
     none⟩ (some 9) 7 (by decide)⟩

/-- An `academico.models.Asistencia` row (the fields the attendance service
filters on). `estado` ranges over `PRESENTE / AUSENTE / ATRASO / JUSTIFICADO`. -/
structure Asistencia where
  estudiante : Nat
  curso : Nat
  fecha : Int
  estado : String
deriving DecidableEq

/-- The queryset filter of `calcular_ausentismo_estudiante`: by student, and
by course / date range when those optional bounds are given. -/
def filtroAsistencia (estudianteId : Nat) (curso : Option Nat)
    (fecha_desde fecha_hasta : Option Int) (a : Asistencia) : Bool :=
  a.estudiante == estudianteId &&
    (match curso with
      | some c => a.curso == c
      | none => true) &&
    (match fecha_desde with
      | some d => decide (d ≤ a.fecha)
      | none => true) &&
    (match fecha_hasta with
      | some d => decide (a.fecha ≤ d)
      | none => true)

/-- The absence count of `calcular_ausentismo_estudiante` counts both
`AUSENTE` and `JUSTIFICADO` records. -/
def esAusencia (a : Asistencia) : Bool :=
  a.estado == "AUSENTE" || a.estado == "JUSTIFICADO"

/-- Tardy records (`ATRASO`). -/
def esAtraso (a : Asistencia) : Bool :=
  a.estado == "ATRASO"

/-- The statistics dict returned by `calcular_ausentismo_estudiante`. -/
structure EstadisticasAusentismo where
  total_registros : Nat
  total_ausencias : Nat
  total_atrasos : Nat
  porcentaje_ausencia : ℚ
  porcentaje_atraso : ℚ
deriving DecidableEq

/-- `asistencia.calcular_ausentismo_estudiante`
(`academico/services/asistencia.py` lines 13-69): absence / tardy counts and
percentages over the filtered scope, all zero when the scope is empty. -/
def calcular_ausentismo_estudiante (asistencias : List Asistencia) (estudianteId : Nat)
    (curso : Option Nat) (fecha_desde fecha_hasta : Option Int) : EstadisticasAusentismo :=
  let qs := asistencias.filter (filtroAsistencia estudianteId curso fecha_desde fecha_hasta)
  let total := qs.length
  let ausencias := (qs.filter esAusencia).length
  let atrasos := (qs.filter esAtraso).length
  if total == 0 then
    { total_registros := 0, total_ausencias := 0, total_atrasos := 0,
      porcentaje_ausencia := 0, porcentaje_atraso := 0 }
  else
    { total_registros := total, total_ausencias := ausencias, total_atrasos := atrasos,
      porcentaje_ausencia := (ausencias * 100 : ℚ) / total,
      porcentaje_atraso := (atrasos * 100 : ℚ) / total }

/-- The risk-level expression of `generar_alerta_por_asistencia`
(`academico/services/asistencia.py` line 116), evaluated before the alert
service is called: `ALTO` when the absence percentage is at least 30, else
`MEDIO`. -/
def nivelRiesgoAsistencia (porcentaje_ausencia : ℚ) : String :=
  if (30 : ℚ) ≤ porcentaje_ausencia then "ALTO" else "MEDIO"

/-- `asistencia.generar_alerta_por_asistencia`
(`academico/services/asistencia.py` lines 72-121): over a trailing window
of `ventana_dias` days ending today, returns `None` when there are no
records or the absence percentage is below `porcentaje_umbral`; otherwise
it calls `crear_alerta_temprana_automatizada` (dedup window 15) with the
computed risk level — a call that always raises `FieldError`, which
propagates to the caller. The description f-string is elided to a fixed
text. -/
def generar_alerta_por_asistencia (asistencias : List Asistencia)
    (alertas : List AlertaTemprana) (ahora : Int) (estudiante : User) (curso : Curso)
    (porcentaje_umbral : ℚ) (ventana_dias : Int) (creada_por : Option Nat) :
    Except String CrearAlertaResult :=
  let stats := calcular_ausentismo_estudiante asistencias estudiante.id (some curso.id)
    (some (ahora - ventana_dias)) (some ahora)
  if stats.total_registros == 0 then
    Except.ok { retorno := none, alertas := alertas, notificaciones := [], emails := [] }
  else if stats.porcentaje_ausencia < porcentaje_umbral then
    Except.ok { retorno := none, alertas := alertas, notificaciones := [], emails := [] }
  else
    crear_alerta_temprana_automatizada alertas ahora estudiante curso none "ASISTENCIA"
      "Inasistencia alta en los ultimos dias."
      (nivelRiesgoAsistencia stats.porcentaje_ausencia) creada_por 15

lemma calcular_ausentismo_valores (asistencias : List Asistencia) (e : Nat)
    (curso : Option Nat) (desde hasta : Option Int)
    (h : (asistencias.filter (filtroAsistencia e curso desde hasta)).length ≠ 0) :
    (calcular_ausentismo_estudiante asistencias e curso desde hasta).total_registros
      = (asistencias.filter (filtroAsistencia e curso desde hasta)).length ∧
    (calcular_ausentismo_estudiante asistencias e curso desde hasta).porcentaje_ausencia
      = (((asistencias.filter (filtroAsistencia e curso desde hasta)).filter
            esAusencia).length * 100 : ℚ)
          / (asistencias.filter (filtroAsistencia e curso desde hasta)).length := by
  simp [calcular_ausentismo_estudiante, h]

lemma generar_alerta_30pct_aux (asistencias : List Asistencia)
    (alertas : List AlertaTemprana) (ahora : Int) (estudiante : User) (curso : Curso)
    (creada_por : Option Nat)
    (htotal : (asistencias.filter (filtroAsistencia estudiante.id (some curso.id)
        (some (ahora - 30)) (some ahora))).length = 10)
    (haus : ((asistencias.filter (filtroAsistencia estudiante.id (some curso.id)
        (some (ahora - 30)) (some ahora))).filter esAusencia).length = 3) :
    (calcular_ausentismo_estudiante asistencias estudiante.id (some curso.id)
        (some (ahora - 30)) (some ahora)).porcentaje_ausencia = 30 ∧
    generar_alerta_por_asistencia asistencias alertas ahora estudiante curso 20 30
        creada_por
      = Except.error "FieldError: Cannot resolve keyword asignatura into field" := by
  have hne : (asistencias.filter (filtroAsistencia estudiante.id (some curso.id)
      (some (ahora - 30)) (some ahora))).length ≠ 0 := by
    rw [htotal]; decide
  obtain ⟨ht, hp⟩ := calcular_ausentismo_valores asistencias estudiante.id (some curso.id)
    (some (ahora - 30)) (some ahora) hne
  rw [htotal] at ht
  rw [htotal, haus] at hp
  have hp30 : (calcular_ausentismo_estudiante asistencias estudiante.id (some curso.id)
      (some (ahora - 30)) (some ahora)).porcentaje_ausencia = 30 := by
    rw [hp]; norm_num
  refine ⟨hp30, ?_⟩
  simp only [generar_alerta_por_asistencia, ht, hp30]
  norm_num
  exact crear_alerta_siempre_error alertas ahora estudiante curso none "ASISTENCIA"
    "Inasistencia alta en los ultimos dias." (nivelRiesgoAsistencia 30) creada_por 15

/-- C3 counterexample: for the claimed input — a student with 10 attendance
records in the trailing 30-day window, exactly 3 of them `AUSENTE` (absence
rate exactly 30.0%) — the attendance alert path creates no MEDIUM alert:
the alert-service call raises `FieldError` (the `AlertaTemprana` table has
no `asignatura` column), so no alert of any level is stored. -/
theorem generar_alerta_asistencia_30pct_counterexample :
    generar_alerta_por_asistencia
        [⟨1, 2, 1, "AUSENTE"⟩, ⟨1, 2, 2, "AUSENTE"⟩, ⟨1, 2, 3, "AUSENTE"⟩,
         ⟨1, 2, 4, "PRESENTE"⟩, ⟨1, 2, 5, "PRESENTE"⟩, ⟨1, 2, 6, "PRESENTE"⟩,
         ⟨1, 2, 7, "PRESENTE"⟩, ⟨1, 2, 8, "PRESENTE"⟩, ⟨1, 2, 9, "PRESENTE"⟩,
         ⟨1, 2, 10, "PRESENTE"⟩]
        [] 30 ⟨1, "Ana", "Perez", "", []⟩ ⟨2, "7A", none, []⟩ 20 30 none
      = Except.error "FieldError: Cannot resolve keyword asignatura into field" :=
  (generar_alerta_30pct_aux
    [⟨1, 2, 1, "AUSENTE"⟩, ⟨1, 2, 2, "AUSENTE"⟩, ⟨1, 2, 3, "AUSENTE"⟩,
     ⟨1, 2, 4, "PRESENTE"⟩, ⟨1, 2, 5, "PRESENTE"⟩, ⟨1, 2, 6, "PRESENTE"⟩,
     ⟨1, 2, 7, "PRESENTE"⟩, ⟨1, 2, 8, "PRESENTE"⟩, ⟨1, 2, 9, "PRESENTE"⟩,
     ⟨1, 2, 10, "PRESENTE"⟩]
    [] 30 ⟨1, "Ana", "Perez", "", []⟩ ⟨2, "7A", none, []⟩ none
    (by decide) (by decide)).2

/-- C3 (amended): with 10 records in the trailing 30-day window and exactly
3 of them absences (absence rate exactly 30.0%, at the 20% threshold and at
the 30 HIGH/MEDIUM boundary), the attendance path computes risk level
`ALTO` — the code breaks the tie at 30 with `>=`, towards HIGH, not
MEDIUM — and the subsequent alert-creation call raises `FieldError`,
because the `AlertaTemprana` table has no `asignatura` column, so no alert
of any level is stored. -/
theorem generar_alerta_asistencia_30pct_alto (asistencias : List Asistencia)
    (alertas : List AlertaTemprana) (ahora : Int) (estudiante : User) (curso : Curso)
    (creada_por : Option Nat)
    (htotal : (asistencias.filter (filtroAsistencia estudiante.id (some curso.id)
        (some (ahora - 30)) (some ahora))).length = 10)
    (haus : ((asistencias.filter (filtroAsistencia estudiante.id (some curso.id)
        (some (ahora - 30)) (some ahora))).filter esAusencia).length = 3) :
    nivelRiesgoAsistencia (calcular_ausentismo_estudiante asistencias estudiante.id
        (some curso.id) (some (ahora - 30)) (some ahora)).porcentaje_ausencia
      = "ALTO" ∧
    generar_alerta_por_asistencia asistencias alertas ahora estudiante curso 20 30
        creada_por
      = Except.error "FieldError: Cannot resolve keyword asignatura into field" := by
  obtain ⟨hp30, herr⟩ := generar_alerta_30pct_aux asistencias alertas ahora estudiante
    curso creada_por htotal haus
  refine ⟨?_, herr⟩
  rw [hp30]
  norm_num [nivelRiesgoAsistencia]

/-- C3 witness for the amended theorem: the concrete 10-record scenario. -/
theorem generar_alerta_asistencia_30pct_alto_witness :
    (([⟨1, 2, 1, "AUSENTE"⟩, ⟨1, 2, 2, "AUSENTE"⟩, ⟨1, 2, 3, "AUSENTE"⟩,
       ⟨1, 2, 4, "PRESENTE"⟩, ⟨1, 2, 5, "PRESENTE"⟩, ⟨1, 2, 6, "PRESENTE"⟩,
       ⟨1, 2, 7, "PRESENTE"⟩, ⟨1, 2, 8, "PRESENTE"⟩, ⟨1, 2, 9, "PRESENTE"⟩,
       ⟨1, 2, 10, "PRESENTE"⟩] : List Asistencia).filter
        (filtroAsistencia (User.id ⟨1, "Ana", "Perez", "", []⟩)
          (some (Curso.id ⟨2, "7A", none, []⟩)) (some ((30 : Int) - 30))
          (some 30))).length = 10 ∧
    ((([⟨1, 2, 1, "AUSENTE"⟩, ⟨1, 2, 2, "AUSENTE"⟩, ⟨1, 2, 3, "AUSENTE"⟩,
       ⟨1, 2, 4, "PRESENTE"⟩, ⟨1, 2, 5, "PRESENTE"⟩, ⟨1, 2, 6, "PRESENTE"⟩,
       ⟨1, 2, 7, "PRESENTE"⟩, ⟨1, 2, 8, "PRESENTE"⟩, ⟨1, 2, 9, "PRESENTE"⟩,
       ⟨1, 2, 10, "PRESENTE"⟩] : List Asistencia).filter
        (filtroAsistencia (User.id ⟨1, "Ana", "Perez", "", []⟩)
          (some (Curso.id ⟨2, "7A", none, []⟩)) (some ((30 : Int) - 30))
          (some 30))).filter esAusencia).length = 3 ∧
    (nivelRiesgoAsistencia (calcular_ausentismo_estudiante
        [⟨1, 2, 1, "AUSENTE"⟩, ⟨1, 2, 2, "AUSENTE"⟩, ⟨1, 2, 3, "AUSENTE"⟩,
         ⟨1, 2, 4, "PRESENTE"⟩, ⟨1, 2, 5, "PRESENTE"⟩, ⟨1, 2, 6, "PRESENTE"⟩,
         ⟨1, 2, 7, "PRESENTE"⟩, ⟨1, 2, 8, "PRESENTE"⟩, ⟨1, 2, 9, "PRESENTE"⟩,
         ⟨1, 2, 10, "PRESENTE"⟩] (User.id ⟨1, "Ana", "Perez", "", []⟩)
        (some (Curso.id ⟨2, "7A", none, []⟩)) (some ((30 : Int) - 30))
        (some 30)).porcentaje_ausencia = "ALTO" ∧
     generar_alerta_por_asistencia
        [⟨1, 2, 1, "AUSENTE"⟩, ⟨1, 2, 2, "AUSENTE"⟩, ⟨1, 2, 3, "AUSENTE"⟩,
         ⟨1, 2, 4, "PRESENTE"⟩, ⟨1, 2, 5, "PRESENTE"⟩, ⟨1, 2, 6, "PRESENTE"⟩,
         ⟨1, 2, 7, "PRESENTE"⟩, ⟨1, 2, 8, "PRESENTE"⟩, ⟨1, 2, 9, "PRESENTE"⟩,
         ⟨1, 2, 10, "PRESENTE"⟩]
        [] 30 ⟨1, "Ana", "Perez", "", []⟩ ⟨2, "7A", none, []⟩ 20 30 none
      = Except.error "FieldError: Cannot resolve keyword asignatura into field") :=
  ⟨by decide, by decide,
   generar_alerta_asistencia_30pct_alto
     [⟨1, 2, 1, "AUSENTE"⟩, ⟨1, 2, 2, "AUSENTE"⟩, ⟨1, 2, 3, "AUSENTE"⟩,
      ⟨1, 2, 4, "PRESENTE"⟩, ⟨1, 2, 5, "PRESENTE"⟩, ⟨1, 2, 6, "PRESENTE"⟩,
      ⟨1, 2, 7, "PRESENTE"⟩, ⟨1, 2, 8, "PRESENTE"⟩, ⟨1, 2, 9, "PRESENTE"⟩,
      ⟨1, 2, 10, "PRESENTE"⟩]
     [] 30 ⟨1, "Ana", "Perez", "", []⟩ ⟨2, "7A", none, []⟩ none
     (by decide) (by decide)⟩

/-- C4: a student with zero attendance records in the queried window scope
gets all-zero statistics from `calcular_ausentismo_estudiante`, and
`generar_alerta_por_asistencia` returns `None` before reaching the failing
alert-service call, leaving the alert table and notifications untouched. -/
theorem asistencia_sin_registros (asistencias : List Asistencia)
    (alertas : List AlertaTemprana) (ahora : Int) (estudiante : User) (curso : Curso)
    (umbral : ℚ) (ventana : Int) (creada_por : Option Nat)
    (h0 : asistencias.filter (filtroAsistencia estudiante.id (some curso.id)
        (some (ahora - ventana)) (some ahora)) = []) :
    calcular_ausentismo_estudiante asistencias estudiante.id (some curso.id)
        (some (ahora - ventana)) (some ahora)
      = { total_registros := 0, total_ausencias := 0, total_atrasos := 0,
          porcentaje_ausencia := 0, porcentaje_atraso := 0 } ∧
    generar_alerta_por_asistencia asistencias alertas ahora estudiante curso umbral
        ventana creada_por
      = Except.ok { retorno := none, alertas := alertas, notificaciones := [], emails := [] } := by
  have hc : calcular_ausentismo_estudiante asistencias estudiante.id (some curso.id)
      (some (ahora - ventana)) (some ahora)
      = { total_registros := 0, total_ausencias := 0, total_atrasos := 0,
          porcentaje_ausencia := 0, porcentaje_atraso := 0 } := by
    simp [calcular_ausentismo_estudiante, h0]
  refine ⟨hc, ?_⟩
  simp [generar_alerta_por_asistencia, hc]

/-- C4 witness: the student has attendance records, but none inside the
queried course-and-window scope. -/
theorem asistencia_sin_registros_witness :
    ([⟨1, 9, 5, "AUSENTE"⟩] : List Asistencia).filter
        (filtroAsistencia (User.id ⟨1, "Ana", "Perez", "", []⟩)
          (some (Curso.id ⟨2, "7A", none, []⟩)) (some ((40 : Int) - 30)) (some 40)) = [] ∧
    (calcular_ausentismo_estudiante [⟨1, 9, 5, "AUSENTE"⟩]
        (User.id ⟨1, "Ana", "Perez", "", []⟩) (some (Curso.id ⟨2, "7A", none, []⟩))
        (some ((40 : Int) - 30)) (some 40)
      = { total_registros := 0, total_ausencias := 0, total_atrasos := 0,
          porcentaje_ausencia := 0, porcentaje_atraso := 0 } ∧
    generar_alerta_por_asistencia [⟨1, 9, 5, "AUSENTE"⟩] [] 40
        ⟨1, "Ana", "Perez", "", []⟩ ⟨2, "7A", none, []⟩ 20 30 none
      = Except.ok { retorno := none, alertas := [], notificaciones := [], emails := [] }) :=
  ⟨by decide,
   asistencia_sin_registros [⟨1, 9, 5, "AUSENTE"⟩] [] 40 ⟨1, "Ana", "Perez", "", []⟩
     ⟨2, "7A", none, []⟩ 20 30 none (by decide)⟩

/-- An `academico.models.HorarioCurso` row: a class slot assignment
(course, subject, teacher, room, time block, academic period). `sala` and
`docente` are `Option` because an unsaved candidate may carry no room or
teacher (the service guards both with a truthiness check). -/
structure HorarioCurso where
  id : Nat
  curso : Nat
  asignatura : Nat
  docente : Option Nat
  sala : Option Nat
  bloque : Nat
  periodo : Nat
  es_rotativo : Bool
deriving DecidableEq

/-- The dict returned by `obtener_conflictos_horario`: the clashing
assignments grouped by axis. -/
structure ConflictosHorario where
  sala : List HorarioCurso
  docente : List HorarioCurso
  curso : List HorarioCurso
deriving DecidableEq

/-- `horario.obtener_conflictos_horario`
(`academico/services/horario.py` lines 56-93): among the assignments with
the same period and block (excluding the candidate itself), collects the
room, teacher and course clashes; the room / teacher axes are only checked
when the candidate has a room / teacher. -/
def obtener_conflictos_horario (db : List HorarioCurso) (horario : HorarioCurso) :
    ConflictosHorario :=
  let qs_base := db.filter (fun x => x.periodo == horario.periodo &&
    x.bloque == horario.bloque && x.id != horario.id)
  { sala := match horario.sala with
      | some s => qs_base.filter (fun x => x.sala == some s)
      | none => []
    docente := match horario.docente with
      | some d => qs_base.filter (fun x => x.docente == some d)
      | none => []
    curso := qs_base.filter (fun x => x.curso == horario.curso) }

/-- The aggregated error list of `validar_horario_sin_conflictos`: one
message per conflicting axis (the f-string interpolations are elided). -/
def erroresDeConflictos (c : ConflictosHorario) : List String :=
  (if !c.sala.isEmpty then ["La sala ya tiene clases en el bloque."] else []) ++
    (if !c.docente.isEmpty then ["El docente ya tiene clases en el bloque."] else []) ++
    (if !c.curso.isEmpty then ["El curso ya tiene otra clase en el bloque."] else [])

/-- `horario.validar_horario_sin_conflictos`
(`academico/services/horario.py` lines 96-120): raises `ValidationError`
with the aggregated messages when any axis conflicts, otherwise returns
normally. -/
def validar_horario_sin_conflictos (db : List HorarioCurso) (horario : HorarioCurso) :
    Except (List String) Unit :=
  if (erroresDeConflictos (obtener_conflictos_horario db horario)).isEmpty then
    Except.ok ()
  else
    Except.error (erroresDeConflictos (obtener_conflictos_horario db horario))

/-- A stored assignment clashes with the candidate: another row (same
period, same block) sharing its room, its teacher, or its course. -/
def conflictoCon (horario x : HorarioCurso) : Prop :=
  x.id ≠ horario.id ∧ x.periodo = horario.periodo ∧ x.bloque = horario.bloque ∧
    ((∃ s, horario.sala = some s ∧ x.sala = some s) ∨
     (∃ d, horario.docente = some d ∧ x.docente = some d) ∨
     x.curso = horario.curso)

lemma lista_ne_nil_iff_exists_mem {α : Type _} (l : List α) : l ≠ [] ↔ ∃ x, x ∈ l := by
  constructor
  · intro hl
    cases l with
    | nil => exact absurd rfl hl
    | cons a t => exact ⟨a, List.mem_cons_self a t⟩
  · rintro ⟨x, hx⟩ hnil
    rw [hnil] at hx
    exact absurd hx (List.not_mem_nil x)

lemma mem_qs_base (db : List HorarioCurso) (h x : HorarioCurso) :
    x ∈ db.filter (fun y => y.periodo == h.periodo && y.bloque == h.bloque &&
        y.id != h.id) ↔
      x ∈ db ∧ x.periodo = h.periodo ∧ x.bloque = h.bloque ∧ x.id ≠ h.id := by
  simp [List.mem_filter, and_assoc]

lemma mem_conflictos_sala (db : List HorarioCurso) (h x : HorarioCurso) :
    x ∈ (obtener_conflictos_horario db h).sala ↔
      x ∈ db ∧ x.periodo = h.periodo ∧ x.bloque = h.bloque ∧ x.id ≠ h.id ∧
        ∃ s, h.sala = some s ∧ x.sala = some s := by
  unfold obtener_conflictos_horario
  cases hs : h.sala with
  | none => simp
  | some s =>
    simp only [List.mem_filter, Bool.and_eq_true, and_assoc, Option.some.injEq,
      beq_iff_eq, bne_iff_ne, ne_eq, exists_eq_left]
    aesop

lemma mem_conflictos_docente (db : List HorarioCurso) (h x : HorarioCurso) :
    x ∈ (obtener_conflictos_horario db h).docente ↔
      x ∈ db ∧ x.periodo = h.periodo ∧ x.bloque = h.bloque ∧ x.id ≠ h.id ∧
        ∃ d, h.docente = some d ∧ x.docente = some d := by
  unfold obtener_conflictos_horario
  cases hd : h.docente with
  | none => simp
  | some d =>
    simp only [List.mem_filter, Bool.and_eq_true, and_assoc, Option.some.injEq,
      beq_iff_eq, bne_iff_ne, ne_eq, exists_eq_left]
    aesop

lemma mem_conflictos_curso (db : List HorarioCurso) (h x : HorarioCurso) :
    x ∈ (obtener_conflictos_horario db h).curso ↔
      x ∈ db ∧ x.periodo = h.periodo ∧ x.bloque = h.bloque ∧ x.id ≠ h.id ∧
        x.curso = h.curso := by
  unfold obtener_conflictos_horario
  simp only [List.mem_filter, Bool.and_eq_true, and_assoc, beq_iff_eq, bne_iff_ne,
    ne_eq]

lemma errores_vacios_iff (c : ConflictosHorario) :
    (erroresDeConflictos c).isEmpty = true ↔
      c.sala = [] ∧ c.docente = [] ∧ c.curso = [] := by
  unfold erroresDeConflictos
  cases c.sala <;> cases c.docente <;> cases c.curso <;> simp

lemma mem_errores_sala (c : ConflictosHorario) :
    "La sala ya tiene clases en el bloque." ∈ erroresDeConflictos c ↔ c.sala ≠ [] := by
  unfold erroresDeConflictos
  cases c.sala <;> cases c.docente <;> cases c.curso <;> simp

lemma mem_errores_docente (c : ConflictosHorario) :
    "El docente ya tiene clases en el bloque." ∈ erroresDeConflictos c ↔
      c.docente ≠ [] := by
  unfold erroresDeConflictos
  cases c.sala <;> cases c.docente <;> cases c.curso <;> simp

lemma mem_errores_curso (c : ConflictosHorario) :
    "El curso ya tiene otra clase en el bloque." ∈ erroresDeConflictos c ↔
      c.curso ≠ [] := by
  unfold erroresDeConflictos
  cases c.sala <;> cases c.docente <;> cases c.curso <;> simp

lemma validar_error_iff (db : List HorarioCurso) (h : HorarioCurso) (e : List String) :
    validar_horario_sin_conflictos db h = Except.error e ↔
      (erroresDeConflictos (obtener_conflictos_horario db h)).isEmpty = false ∧
        e = erroresDeConflictos (obtener_conflictos_horario db h) := by
  unfold validar_horario_sin_conflictos
  cases hie : (erroresDeConflictos (obtener_conflictos_horario db h)).isEmpty with
  | true => simp
  | false => simp [eq_comm]

lemma conflicto_iff_algun_eje (db : List HorarioCurso) (h : HorarioCurso) :
    (∃ x ∈ db, conflictoCon h x) ↔
      ((obtener_conflictos_horario db h).sala ≠ [] ∨
       (obtener_conflictos_horario db h).docente ≠ [] ∨
       (obtener_conflictos_horario db h).curso ≠ []) := by
  constructor
  · rintro ⟨x, hx, hid, hper, hblo, hax⟩
    rcases hax with hs | hd | hc
    · exact Or.inl ((lista_ne_nil_iff_exists_mem _).mpr
        ⟨x, (mem_conflictos_sala db h x).mpr ⟨hx, hper, hblo, hid, hs⟩⟩)
    · exact Or.inr (Or.inl ((lista_ne_nil_iff_exists_mem _).mpr
        ⟨x, (mem_conflictos_docente db h x).mpr ⟨hx, hper, hblo, hid, hd⟩⟩))
    · exact Or.inr (Or.inr ((lista_ne_nil_iff_exists_mem _).mpr
        ⟨x, (mem_conflictos_curso db h x).mpr ⟨hx, hper, hblo, hid, hc⟩⟩))
  · rintro (hne | hne | hne)
    · obtain ⟨x, hx⟩ := (lista_ne_nil_iff_exists_mem _).mp hne
      obtain ⟨hxdb, hper, hblo, hid, hs⟩ := (mem_conflictos_sala db h x).mp hx
      exact ⟨x, hxdb, hid, hper, hblo, Or.inl hs⟩
    · obtain ⟨x, hx⟩ := (lista_ne_nil_iff_exists_mem _).mp hne
      obtain ⟨hxdb, hper, hblo, hid, hd⟩ := (mem_conflictos_docente db h x).mp hx
      exact ⟨x, hxdb, hid, hper, hblo, Or.inr (Or.inl hd)⟩
    · obtain ⟨x, hx⟩ := (lista_ne_nil_iff_exists_mem _).mp hne
      obtain ⟨hxdb, hper, hblo, hid, hc⟩ := (mem_conflictos_curso db h x).mp hx
      exact ⟨x, hxdb, hid, hper, hblo, Or.inr (Or.inr hc)⟩

/-- C2: `validar_horario_sin_conflictos` fails with a non-empty error list
exactly when some other assignment with the same (period, block) clashes
with the candidate on room, teacher, or course; and the error list carries
the message of every conflicting axis (room, teacher and course), not only
the first one found. -/
theorem validar_horario_conflictos (db : List HorarioCurso) (horario : HorarioCurso) :
    ((∃ e, validar_horario_sin_conflictos db horario = Except.error e ∧ e ≠ []) ↔
      ∃ x ∈ db, conflictoCon horario x) ∧
    (∀ e, validar_horario_sin_conflictos db horario = Except.error e →
      (("La sala ya tiene clases en el bloque." ∈ e ↔
          (obtener_conflictos_horario db horario).sala ≠ []) ∧
       ("El docente ya tiene clases en el bloque." ∈ e ↔
          (obtener_conflictos_horario db horario).docente ≠ []) ∧
       ("El curso ya tiene otra clase en el bloque." ∈ e ↔
          (obtener_conflictos_horario db horario).curso ≠ []))) := by
  constructor
  · rw [conflicto_iff_algun_eje]
    constructor
    · rintro ⟨e, he, -⟩
      obtain ⟨hie, -⟩ := (validar_error_iff db horario e).mp he
      have : ¬ ((obtener_conflictos_horario db horario).sala = [] ∧
          (obtener_conflictos_horario db horario).docente = [] ∧
          (obtener_conflictos_horario db horario).curso = []) := by
        intro hall
        rw [(errores_vacios_iff _).mpr hall] at hie
        simp at hie
      tauto
    · intro hax
      have hie : (erroresDeConflictos (obtener_conflictos_horario db horario)).isEmpty
          = false := by
        cases hie : (erroresDeConflictos
            (obtener_conflictos_horario db horario)).isEmpty with
        | false => rfl
        | true =>
          obtain ⟨h1, h2, h3⟩ := (errores_vacios_iff _).mp hie
          rcases hax with hne | hne | hne <;> [exact absurd h1 hne;
            exact absurd h2 hne; exact absurd h3 hne]
      refine ⟨erroresDeConflictos (obtener_conflictos_horario db horario),
        (validar_error_iff db horario _).mpr ⟨hie, rfl⟩, ?_⟩
      intro hnil
      rw [hnil] at hie
      simp at hie
  · intro e he
    obtain ⟨-, rfl⟩ := (validar_error_iff db horario e).mp he
    exact ⟨mem_errores_sala _, mem_errores_docente _, mem_errores_curso _⟩

/-- An `academico.models.Evaluacion` row (the fields the services touch).
`estado` ranges over `PENDIENTE / ATRASADA / PUBLICADA`. -/
structure Evaluacion where
  id : Nat
  curso : Nat
  asignatura : Nat
  docente : Option Nat
  periodo : Nat
  titulo : String
  fecha_evaluacion : Int
  fecha_limite_publicacion : Int
  fecha_publicacion : Option Int
  estado : String
deriving DecidableEq

/-- An `academico.models.Calificacion` row: a grade of one student in one
evaluation (1.0 to 7.0 scale, exact rational). -/
structure Calificacion where
  evaluacion : Nat
  estudiante : Nat
  nota : ℚ
deriving DecidableEq

/-- An `academico.models.PromedioFinal` row: the final average of a student
for a (course, subject, period), unique on that key. -/
structure PromedioFinal where
  estudiante : Nat
  curso : Nat
  asignatura : Nat
  periodo : Nat
  promedio : ℚ
  aprobado : Bool
deriving DecidableEq

/-- `evaluacion.validar_fechas_evaluacion`
(`academico/services/evaluacion.py` lines 23-47): collects an error per
incoherent date pair (`fecha_limite_publicacion < fecha_evaluacion`;
`fecha_publicacion`, when set, before `fecha_evaluacion`); the dict keys
stand for the raised `ValidationError`. -/
def validar_fechas_evaluacion (evaluacion : Evaluacion) : List String :=
  (if evaluacion.fecha_limite_publicacion < evaluacion.fecha_evaluacion then
    ["fecha_limite_publicacion"] else []) ++
    (match evaluacion.fecha_publicacion with
      | some fp => if fp < evaluacion.fecha_evaluacion then ["fecha_publicacion"] else []
      | none => [])

/-- The notifications `publicar_evaluacion` creates: one for the publishing
user (or, failing that, the evaluation's teacher), plus one per enrolled
student when `notificar_estudiantes`. -/
def notificacionesPublicar (evaluacion : Evaluacion) (curso : Curso)
    (usuario : Option Nat) (notificar_estudiantes : Bool) : List Notificacion :=
  (match usuario with
    | some u => [{ user := u, title := "Evaluacion publicada", level := "INFO" }]
    | none =>
      match evaluacion.docente with
      | some d => [{ user := d, title := "Evaluacion publicada", level := "INFO" }]
      | none => []) ++
    (if notificar_estudiantes then
      curso.estudiantes.map (fun est =>
        { user := est, title := "Nueva evaluacion publicada", level := "INFO" })
    else [])

/-- The guardian e-mails `publicar_evaluacion` queues when
`notificar_apoderados`: one per guardian with a non-empty e-mail, for each
enrolled student (guardians are resolved through the user table). -/
def emailsPublicar (usuarios : List User) (curso : Curso)
    (notificar_apoderados : Bool) : List Email :=
  if notificar_apoderados then
    curso.estudiantes.foldr (fun est acc =>
      (match usuarios.find? (fun u => u.id == est) with
        | some u => u.apoderados.filterMap (fun ap =>
            match usuarios.find? (fun v => v.id == ap) with
            | some apu =>
              if apu.email != "" then
                some { destinatario := apu.email, asunto := "Evaluacion publicada" }
              else none
            | none => none)
        | none => []) ++ acc) []
  else []

/-- Result of one call to `publicar_evaluacion`: the returned evaluation and
the notification / e-mail side effects. -/
structure PublicarResult where
  evaluacion : Evaluacion
  notificaciones : List Notificacion
  emails : List Email
deriving DecidableEq

/-- `evaluacion.publicar_evaluacion`
(`academico/services/evaluacion.py` lines 72-142): a no-op on an already
PUBLISHED evaluation; otherwise validates the dates, then sets
`estado = PUBLICADA` and `fecha_publicacion = ahora` and emits the
notifications. `curso` is the dereferenced `evaluacion.curso`. -/
def publicar_evaluacion (evaluacion : Evaluacion) (ahora : Int)
    (usuarios : List User) (curso : Curso) (usuario : Option Nat)
    (notificar_estudiantes notificar_apoderados : Bool) :
    Except (List String) PublicarResult :=
  if evaluacion.estado == "PUBLICADA" then
    Except.ok { evaluacion := evaluacion, notificaciones := [], emails := [] }
  else if (validar_fechas_evaluacion evaluacion).isEmpty then
    Except.ok
      { evaluacion := { evaluacion with
          estado := "PUBLICADA", fecha_publicacion := some ahora },
        notificaciones := notificacionesPublicar evaluacion curso usuario
          notificar_estudiantes,
        emails := emailsPublicar usuarios curso notificar_apoderados }
  else
    Except.error (validar_fechas_evaluacion evaluacion)

/-- C9: an evaluation with `publish_deadline >= eval_date`, not yet
PUBLISHED and with no stored publish date, is published successfully even
when the call happens after the deadline has passed — the state becomes
`PUBLICADA` and `fecha_publicacion` is stamped with the call time; and
publishing an already PUBLISHED evaluation, whatever its dates, is a no-op
returning it unchanged with no notification. -/
theorem publicar_evaluacion_tras_limite (evaluacion : Evaluacion) (ahora : Int)
    (usuarios : List User) (curso : Curso) (usuario : Option Nat)
    (notificar_estudiantes notificar_apoderados : Bool) :
    (evaluacion.fecha_evaluacion ≤ evaluacion.fecha_limite_publicacion →
      evaluacion.fecha_limite_publicacion < ahora →
      evaluacion.fecha_publicacion = none →
      evaluacion.estado ≠ "PUBLICADA" →
      publicar_evaluacion evaluacion ahora usuarios curso usuario
          notificar_estudiantes notificar_apoderados
        = Except.ok
            { evaluacion := { evaluacion with
                estado := "PUBLICADA", fecha_publicacion := some ahora },
              notificaciones := notificacionesPublicar evaluacion curso usuario
                notificar_estudiantes,
              emails := emailsPublicar usuarios curso notificar_apoderados } ∧
      ({ evaluacion with
          estado := "PUBLICADA", fecha_publicacion := some ahora } :
            Evaluacion).estado = "PUBLICADA" ∧
      ({ evaluacion with
          estado := "PUBLICADA", fecha_publicacion := some ahora } :
            Evaluacion).fecha_publicacion = some ahora) ∧
    (evaluacion.estado = "PUBLICADA" →
      publicar_evaluacion evaluacion ahora usuarios curso usuario
          notificar_estudiantes notificar_apoderados
        = Except.ok { evaluacion := evaluacion, notificaciones := [], emails := [] }) := by
  constructor
  · intro hfechas hlimite hsin hne
    have hval : validar_fechas_evaluacion evaluacion = [] := by
      unfold validar_fechas_evaluacion
      rw [hsin, if_neg (not_lt.mpr hfechas)]
      rfl
    have hne2 : (evaluacion.estado == "PUBLICADA") = false := by
      simp [hne]
    refine ⟨?_, rfl, rfl⟩
    simp [publicar_evaluacion, hne2, hval]
  · intro hpub
    simp [publicar_evaluacion, hpub]

/-- The queryset filter of
`calcular_promedio_estudiante_curso_asignatura_periodo`: grades of the
student whose evaluation belongs to the (course, subject, period) scope
(the FK join is resolved through the evaluation table). -/
def calificacionEnScope (evaluaciones : List Evaluacion)
    (estudianteId cursoId asignaturaId periodoId : Nat) (c : Calificacion) : Bool :=
  c.estudiante == estudianteId &&
    (match evaluaciones.find? (fun e => e.id == c.evaluacion) with
      | some e => e.curso == cursoId && e.asignatura == asignaturaId &&
          e.periodo == periodoId
      | none => false)

/-- `evaluacion.calcular_promedio_estudiante_curso_asignatura_periodo`
(`academico/services/evaluacion.py` lines 145-173): `None` when the student
has no grade in scope, otherwise the average of the grades. -/
def calcular_promedio_estudiante_curso_asignatura_periodo
    (calificaciones : List Calificacion) (evaluaciones : List Evaluacion)
    (estudianteId cursoId asignaturaId periodoId : Nat) : Option ℚ :=
  if (calificaciones.filter (calificacionEnScope evaluaciones estudianteId cursoId
      asignaturaId periodoId)).isEmpty then none
  else some (((calificaciones.filter (calificacionEnScope evaluaciones estudianteId cursoId
        asignaturaId periodoId)).map (fun c => c.nota)).sum
    / (calificaciones.filter (calificacionEnScope evaluaciones estudianteId cursoId
        asignaturaId periodoId)).length)

/-- The unique key of `PromedioFinal.objects.update_or_create`:
(student, course, subject, period). -/
def clavePromedio (estudianteId cursoId asignaturaId periodoId : Nat)
    (p : PromedioFinal) : Bool :=
  p.estudiante == estudianteId && p.curso == cursoId && p.asignatura == asignaturaId &&
    p.periodo == periodoId

/-- Django `update_or_create` on the `PromedioFinal` table: updates the
matching row's `promedio` / `aprobado` when the key exists, inserts a new
row otherwise. -/
def update_or_create_promedio (promedios : List PromedioFinal)
    (estudianteId cursoId asignaturaId periodoId : Nat) (promedio : ℚ)
    (aprobado : Bool) : List PromedioFinal :=
  if promedios.any (clavePromedio estudianteId cursoId asignaturaId periodoId) then
    promedios.map (fun p =>
      if clavePromedio estudianteId cursoId asignaturaId periodoId p then
        { p with promedio := promedio, aprobado := aprobado }
      else p)
  else
    promedios ++
      [{ estudiante := estudianteId, curso := cursoId, asignatura := asignaturaId,
         periodo := periodoId, promedio := promedio, aprobado := aprobado }]

/-- One iteration of the for-loop of
`recalcular_promedios_finales_curso_asignatura`: skip the student when the
average is `None`, otherwise upsert the row with
`aprobado = (aprobar_desde <= promedio)`. -/
def paso_recalcular (calificaciones : List Calificacion) (evaluaciones : List Evaluacion)
    (cursoId asignaturaId periodoId : Nat) (aprobar_desde : ℚ)
    (promedios : List PromedioFinal) (estudianteId : Nat) : List PromedioFinal :=
  match calcular_promedio_estudiante_curso_asignatura_periodo calificaciones evaluaciones
      estudianteId cursoId asignaturaId periodoId with
  | none => promedios
  | some promedio =>
      update_or_create_promedio promedios estudianteId cursoId asignaturaId periodoId
        promedio (decide (aprobar_desde ≤ promedio))

/-- `evaluacion.recalcular_promedios_finales_curso_asignatura`
(`academico/services/evaluacion.py` lines 176-214): iterates the course
roster, skipping students without grades in scope and upserting
`PromedioFinal` for the others. -/
def recalcular_promedios_finales_curso_asignatura (calificaciones : List Calificacion)
    (evaluaciones : List Evaluacion) (curso : Curso) (asignaturaId periodoId : Nat)
    (aprobar_desde : ℚ) (promedios : List PromedioFinal) : List PromedioFinal :=
  curso.estudiantes.foldl
    (paso_recalcular calificaciones evaluaciones curso.id asignaturaId periodoId
      aprobar_desde) promedios

/-- The (student, course, subject, period) key of a `PromedioFinal` row, as
a tuple. -/
def claveDePromedio (p : PromedioFinal) : Nat × Nat × Nat × Nat :=
  (p.estudiante, p.curso, p.asignatura, p.periodo)

/-- Every in-scope row of the table stores exactly the average its student
currently has, with the matching `aprobado` flag. -/
def ValoresCorrectos (calificaciones : List Calificacion) (evaluaciones : List Evaluacion)
    (cursoId asignaturaId periodoId : Nat) (aprobar_desde : ℚ)
    (promedios : List PromedioFinal) : Prop :=
  ∀ p ∈ promedios, p.curso = cursoId → p.asignatura = asignaturaId →
    p.periodo = periodoId →
    calcular_promedio_estudiante_curso_asignatura_periodo calificaciones evaluaciones
        p.estudiante cursoId asignaturaId periodoId = some p.promedio ∧
    p.aprobado = decide (aprobar_desde ≤ p.promedio)

/-- A row with the given key exists in the table. -/
def ClavePresente (k : Nat × Nat × Nat × Nat) (promedios : List PromedioFinal) : Prop :=
  ∃ p ∈ promedios, claveDePromedio p = k

lemma clavePromedio_iff (e c a per : Nat) (p : PromedioFinal) :
    clavePromedio e c a per p = true ↔
      p.estudiante = e ∧ p.curso = c ∧ p.asignatura = a ∧ p.periodo = per := by
  simp [clavePromedio, and_assoc]

lemma clavePromedio_iff_clave (e c a per : Nat) (p : PromedioFinal) :
    clavePromedio e c a per p = true ↔ claveDePromedio p = (e, c, a, per) := by
  rw [clavePromedio_iff]
  simp [claveDePromedio, Prod.ext_iff]

lemma promedioFinal_update_self (p : PromedioFinal) (v : ℚ) (b : Bool)
    (hv : p.promedio = v) (hb : p.aprobado = b) :
    ({ p with promedio := v, aprobado := b } : PromedioFinal) = p := by
  cases p
  simp_all

lemma lista_map_fija {α : Type _} (l : List α) (f : α → α) (h : ∀ a ∈ l, f a = a) :
    l.map f = l := by
  rw [List.map_congr_left h, List.map_id']

lemma update_preserva_valores (calificaciones : List Calificacion)
    (evaluaciones : List Evaluacion) (cId aId pId : Nat) (apro : ℚ)
    (db : List PromedioFinal) (e : Nat) (v : ℚ)
    (hdb : ValoresCorrectos calificaciones evaluaciones cId aId pId apro db)
    (hv : calcular_promedio_estudiante_curso_asignatura_periodo calificaciones
        evaluaciones e cId aId pId = some v) :
    ValoresCorrectos calificaciones evaluaciones cId aId pId apro
      (update_or_create_promedio db e cId aId pId v (decide (apro ≤ v))) := by
  unfold update_or_create_promedio
  split
  · intro p hp hc ha hper
    obtain ⟨q, hq, hfq⟩ := List.mem_map.mp hp
    by_cases hk : clavePromedio e cId aId pId q = true
    · rw [if_pos hk] at hfq
      obtain ⟨hqe, -, -, -⟩ := (clavePromedio_iff e cId aId pId q).mp hk
      subst hfq
      exact ⟨by rw [show ({ q with promedio := v, aprobado := decide (apro ≤ v) } :
          PromedioFinal).estudiante = e from hqe]; exact hv, rfl⟩
    · rw [if_neg hk] at hfq
      subst hfq
      exact hdb q hq hc ha hper
  · intro p hp hc ha hper
    rcases List.mem_append.mp hp with hin | hnew
    · exact hdb p hin hc ha hper
    · have hp' : p =
          { estudiante := e, curso := cId, asignatura := aId, periodo := pId,
            promedio := v, aprobado := decide (apro ≤ v) } := by
        simpa using hnew
      subst hp'
      exact ⟨hv, rfl⟩

lemma paso_preserva_valores (calificaciones : List Calificacion)
    (evaluaciones : List Evaluacion) (cId aId pId : Nat) (apro : ℚ)
    (db : List PromedioFinal) (e : Nat)
    (hdb : ValoresCorrectos calificaciones evaluaciones cId aId pId apro db) :
    ValoresCorrectos calificaciones evaluaciones cId aId pId apro
      (paso_recalcular calificaciones evaluaciones cId aId pId apro db e) := by
  unfold paso_recalcular
  cases hcalc : calcular_promedio_estudiante_curso_asignatura_periodo calificaciones
      evaluaciones e cId aId pId with
  | none => exact hdb
  | some v =>
    exact update_preserva_valores calificaciones evaluaciones cId aId pId apro db e v
      hdb hcalc

lemma fold_preserva_valores (calificaciones : List Calificacion)
    (evaluaciones : List Evaluacion) (cId aId pId : Nat) (apro : ℚ)
    (roster : List Nat) (db : List PromedioFinal)
    (hdb : ValoresCorrectos calificaciones evaluaciones cId aId pId apro db) :
    ValoresCorrectos calificaciones evaluaciones cId aId pId apro
      (roster.foldl (paso_recalcular calificaciones evaluaciones cId aId pId apro) db) := by
  induction roster generalizing db with
  | nil => exact hdb
  | cons est rest ih =>
    exact ih _ (paso_preserva_valores calificaciones evaluaciones cId aId pId apro db est
      hdb)

lemma update_preserva_presencia (db : List PromedioFinal) (e c a per : Nat) (v : ℚ)
    (b : Bool) (k : Nat × Nat × Nat × Nat) (hk : ClavePresente k db) :
    ClavePresente k (update_or_create_promedio db e c a per v b) := by
  obtain ⟨p, hp, hkey⟩ := hk
  unfold update_or_create_promedio
  split
  · by_cases hc : clavePromedio e c a per p = true
    · exact ⟨{ p with promedio := v, aprobado := b },
        List.mem_map.mpr ⟨p, hp, by rw [if_pos hc]⟩, hkey⟩
    · exact ⟨p, List.mem_map.mpr ⟨p, hp, by rw [if_neg hc]⟩, hkey⟩
  · exact ⟨p, List.mem_append_left _ hp, hkey⟩

lemma update_establece_presencia (db : List PromedioFinal) (e c a per : Nat) (v : ℚ)
    (b : Bool) :
    ClavePresente (e, c, a, per) (update_or_create_promedio db e c a per v b) := by
  unfold update_or_create_promedio
  split
  · next hany =>
    obtain ⟨p, hp, hkp⟩ := List.any_eq_true.mp hany
    exact ⟨{ p with promedio := v, aprobado := b },
      List.mem_map.mpr ⟨p, hp, by rw [if_pos hkp]⟩,
      (clavePromedio_iff_clave e c a per p).mp hkp⟩
  · exact ⟨⟨e, c, a, per, v, b⟩,
      List.mem_append_right _ (List.mem_singleton.mpr rfl), rfl⟩

lemma paso_preserva_presencia (calificaciones : List Calificacion)
    (evaluaciones : List Evaluacion) (cId aId pId : Nat) (apro : ℚ)
    (db : List PromedioFinal) (est : Nat) (k : Nat × Nat × Nat × Nat)
    (hk : ClavePresente k db) :
    ClavePresente k
      (paso_recalcular calificaciones evaluaciones cId aId pId apro db est) := by
  unfold paso_recalcular
  cases calcular_promedio_estudiante_curso_asignatura_periodo calificaciones evaluaciones
      est cId aId pId with
  | none => exact hk
  | some v => exact update_preserva_presencia db est cId aId pId v _ k hk

lemma fold_preserva_presencia (calificaciones : List Calificacion)
    (evaluaciones : List Evaluacion) (cId aId pId : Nat) (apro : ℚ)
    (roster : List Nat) (db : List PromedioFinal) (k : Nat × Nat × Nat × Nat)
    (hk : ClavePresente k db) :
    ClavePresente k
      (roster.foldl (paso_recalcular calificaciones evaluaciones cId aId pId apro)
        db) := by
  induction roster generalizing db with
  | nil => exact hk
  | cons e rest ih =>
    exact ih _ (paso_preserva_presencia calificaciones evaluaciones cId aId pId apro db e
      k hk)

lemma fold_establece_presencia (calificaciones : List Calificacion)
    (evaluaciones : List Evaluacion) (cId aId pId : Nat) (apro : ℚ)
    (roster : List Nat) (db : List PromedioFinal) :
    ∀ est ∈ roster, ∀ v,
      calcular_promedio_estudiante_curso_asignatura_periodo calificaciones evaluaciones
          est cId aId pId = some v →
      ClavePresente (est, cId, aId, pId)
        (roster.foldl (paso_recalcular calificaciones evaluaciones cId aId pId apro)
          db) := by
  induction roster generalizing db with
  | nil => intro est hest; cases hest
  | cons e rest ih =>
    intro est hest v hv
    rw [List.foldl_cons]
    rcases List.mem_cons.mp hest with rfl | hrest
    · have h1 : ClavePresente (est, cId, aId, pId)
          (paso_recalcular calificaciones evaluaciones cId aId pId apro db est) := by
        unfold paso_recalcular
        rw [hv]
        exact update_establece_presencia db est cId aId pId v _
      exact fold_preserva_presencia calificaciones evaluaciones cId aId pId apro rest _ _
        h1
    · exact ih _ est hrest v hv

lemma paso_identidad (calificaciones : List Calificacion)
    (evaluaciones : List Evaluacion) (cId aId pId : Nat) (apro : ℚ)
    (db : List PromedioFinal) (est : Nat)
    (hval : ValoresCorrectos calificaciones evaluaciones cId aId pId apro db)
    (hpres : ∀ v,
      calcular_promedio_estudiante_curso_asignatura_periodo calificaciones evaluaciones
          est cId aId pId = some v →
      ClavePresente (est, cId, aId, pId) db) :
    paso_recalcular calificaciones evaluaciones cId aId pId apro db est = db := by
  unfold paso_recalcular
  cases hcalc : calcular_promedio_estudiante_curso_asignatura_periodo calificaciones
      evaluaciones est cId aId pId with
  | none => rfl
  | some v =>
    obtain ⟨p, hp, hkey⟩ := hpres v hcalc
    have hany : db.any (clavePromedio est cId aId pId) = true :=
      List.any_eq_true.mpr ⟨p, hp, (clavePromedio_iff_clave est cId aId pId p).mpr hkey⟩
    show update_or_create_promedio db est cId aId pId v (decide (apro ≤ v)) = db
    unfold update_or_create_promedio
    rw [if_pos hany]
    apply lista_map_fija
    intro q hq
    by_cases hk : clavePromedio est cId aId pId q = true
    · obtain ⟨hqe, hqc, hqa, hqp⟩ := (clavePromedio_iff est cId aId pId q).mp hk
      obtain ⟨hcalcq, haprq⟩ := hval q hq hqc hqa hqp
      rw [hqe, hcalc] at hcalcq
      have hqv : q.promedio = v := by
        injection hcalcq.symm
      rw [if_pos hk]
      exact promedioFinal_update_self q v (decide (apro ≤ v)) hqv (by rw [haprq, hqv])
    · rw [if_neg hk]

lemma fold_identidad (calificaciones : List Calificacion)
    (evaluaciones : List Evaluacion) (cId aId pId : Nat) (apro : ℚ)
    (roster : List Nat) (db : List PromedioFinal)
    (hval : ValoresCorrectos calificaciones evaluaciones cId aId pId apro db)
    (hpres : ∀ est ∈ roster, ∀ v,
      calcular_promedio_estudiante_curso_asignatura_periodo calificaciones evaluaciones
          est cId aId pId = some v →
      ClavePresente (est, cId, aId, pId) db) :
    roster.foldl (paso_recalcular calificaciones evaluaciones cId aId pId apro) db
      = db := by
  revert hpres
  induction roster with
  | nil => intro _; rfl
  | cons e rest ih =>
    intro hpres
    rw [List.foldl_cons,
      paso_identidad calificaciones evaluaciones cId aId pId apro db e hval
        (hpres e (List.mem_cons_self e rest))]
    exact ih (fun est hest => hpres est (List.mem_cons_of_mem e hest))

lemma claveDePromedio_actualizada (p : PromedioFinal) (e c a per : Nat) (v : ℚ)
    (b : Bool) :
    claveDePromedio (if clavePromedio e c a per p then
      { p with promedio := v, aprobado := b } else p) = claveDePromedio p := by
  by_cases h : clavePromedio e c a per p = true
  · rw [if_pos h]
    rfl
  · rw [if_neg h]

lemma update_preserva_claves_nodup (db : List PromedioFinal) (e c a per : Nat) (v : ℚ)
    (b : Bool) (h : (db.map claveDePromedio).Nodup) :
    ((update_or_create_promedio db e c a per v b).map claveDePromedio).Nodup := by
  unfold update_or_create_promedio
  split
  · rw [List.map_map]
    have hcongr : ∀ p ∈ db, (claveDePromedio ∘ fun q =>
        if clavePromedio e c a per q = true then
          { q with promedio := v, aprobado := b } else q) p = claveDePromedio p :=
      fun p _ => claveDePromedio_actualizada p e c a per v b
    rw [List.map_congr_left hcongr]
    exact h
  · next hany =>
    have hnot : (e, c, a, per) ∉ db.map claveDePromedio := by
      intro hmem
      obtain ⟨p, hp, hkey⟩ := List.mem_map.mp hmem
      have hkp : clavePromedio e c a per p = true :=
        (clavePromedio_iff_clave e c a per p).mpr hkey
      exact hany (List.any_eq_true.mpr ⟨p, hp, hkp⟩)
    rw [List.map_append]
    show (db.map claveDePromedio ++ [(e, c, a, per)]).Nodup
    rw [List.nodup_append]
    refine ⟨h, List.nodup_singleton _, ?_⟩
    intro k hk hk'
    rw [List.mem_singleton] at hk'
    subst hk'
    exact hnot hk

lemma paso_preserva_claves_nodup (calificaciones : List Calificacion)
    (evaluaciones : List Evaluacion) (cId aId pId : Nat) (apro : ℚ)
    (db : List PromedioFinal) (est : Nat)
    (h : (db.map claveDePromedio).Nodup) :
    ((paso_recalcular calificaciones evaluaciones cId aId pId apro db est).map
      claveDePromedio).Nodup := by
  unfold paso_recalcular
  cases calcular_promedio_estudiante_curso_asignatura_periodo calificaciones evaluaciones
      est cId aId pId with
  | none => exact h
  | some v => exact update_preserva_claves_nodup db est cId aId pId v _ h

lemma fold_preserva_claves_nodup (calificaciones : List Calificacion)
    (evaluaciones : List Evaluacion) (cId aId pId : Nat) (apro : ℚ)
    (roster : List Nat) (db : List PromedioFinal)
    (h : (db.map claveDePromedio).Nodup) :
    (((roster.foldl (paso_recalcular calificaciones evaluaciones cId aId pId apro)
      db)).map claveDePromedio).Nodup := by
  induction roster generalizing db with
  | nil => exact h
  | cons e rest ih =>
    exact ih _ (paso_preserva_claves_nodup calificaciones evaluaciones cId aId pId apro
      db e h)

/-- C7: with unchanged grade records, running
`recalcular_promedios_finales_curso_asignatura` a second time right after a
first run from an empty `PromedioFinal` table leaves the table exactly as
the first run did (it upserts, never duplicating); the resulting table has
at most one row per (student, course, subject, period) key; and roster
students with no grade in scope get no row at all. -/
theorem recalcular_promedios_round_trip (calificaciones : List Calificacion)
    (evaluaciones : List Evaluacion) (curso : Curso) (asignaturaId periodoId : Nat)
    (aprobar_desde : ℚ) :
    recalcular_promedios_finales_curso_asignatura calificaciones evaluaciones curso
        asignaturaId periodoId aprobar_desde
        (recalcular_promedios_finales_curso_asignatura calificaciones evaluaciones curso
          asignaturaId periodoId aprobar_desde [])
      = recalcular_promedios_finales_curso_asignatura calificaciones evaluaciones curso
          asignaturaId periodoId aprobar_desde [] ∧
    ((recalcular_promedios_finales_curso_asignatura calificaciones evaluaciones curso
        asignaturaId periodoId aprobar_desde []).map claveDePromedio).Nodup ∧
    (∀ est ∈ curso.estudiantes,
      calcular_promedio_estudiante_curso_asignatura_periodo calificaciones evaluaciones
          est curso.id asignaturaId periodoId = none →
      ∀ p ∈ recalcular_promedios_finales_curso_asignatura calificaciones evaluaciones
          curso asignaturaId periodoId aprobar_desde [],
        claveDePromedio p ≠ (est, curso.id, asignaturaId, periodoId)) := by
  have hval0 : ValoresCorrectos calificaciones evaluaciones curso.id asignaturaId
      periodoId aprobar_desde [] := by
    intro p hp
    cases hp
  have hval : ValoresCorrectos calificaciones evaluaciones curso.id asignaturaId
      periodoId aprobar_desde
      (recalcular_promedios_finales_curso_asignatura calificaciones evaluaciones curso
        asignaturaId periodoId aprobar_desde []) :=
    fold_preserva_valores calificaciones evaluaciones curso.id asignaturaId periodoId
      aprobar_desde curso.estudiantes [] hval0
  refine ⟨?_, ?_, ?_⟩
  · exact fold_identidad calificaciones evaluaciones curso.id asignaturaId periodoId
      aprobar_desde curso.estudiantes _ hval
      (fun est hest v hv => fold_establece_presencia calificaciones evaluaciones curso.id
        asignaturaId periodoId aprobar_desde curso.estudiantes [] est hest v hv)
  · exact fold_preserva_claves_nodup calificaciones evaluaciones curso.id asignaturaId
      periodoId aprobar_desde curso.estudiantes [] List.nodup_nil
  · intro est hest hnone p hp hkey
    have hcomp : p.estudiante = est ∧ p.curso = curso.id ∧ p.asignatura = asignaturaId ∧
        p.periodo = periodoId := by
      simpa [claveDePromedio, Prod.ext_iff] using hkey
    obtain ⟨he, hc, ha, hper⟩ := hcomp
    obtain ⟨hcalc, -⟩ := hval p hp hc ha hper
    rw [he, hnone] at hcalc
    cases hcalc

/-- The queryset filter of `generar_reporte_notas_curso_asignatura_periodo`:
grades whose evaluation belongs to the (course, subject, period) scope. -/
def calificacionEnReporte (evaluaciones : List Evaluacion)
    (cursoId asignaturaId periodoId : Nat) (c : Calificacion) : Bool :=
  match evaluaciones.find? (fun e => e.id == c.evaluacion) with
  | some e => e.curso == cursoId && e.asignatura == asignaturaId &&
      e.periodo == periodoId
  | none => false

/-- An `academico.models.ReporteNotasPeriodo` row (generated files elided). -/
structure ReporteNotasPeriodo where
  curso : Nat
  asignatura : Nat
  periodo : Nat
  generado_por : Option Nat
deriving DecidableEq

/-- Result of one call to `generar_reporte_notas_curso_asignatura_periodo`:
the returned report plus the new state of the report and final-average
tables. -/
structure GenerarReporteResult where
  retorno : Option ReporteNotasPeriodo
  reportes : List ReporteNotasPeriodo
  promedios : List PromedioFinal
deriving DecidableEq

/-- `reporte.generar_reporte_notas_curso_asignatura_periodo`
(`academico/services/reporte.py` lines 22-169): returns `None` and changes
nothing when the scope has zero grade records; otherwise `get_or_create`s
the report row (refreshing `generado_por` when given), upserts a
`PromedioFinal` per student in scope with `aprobado = (promedio >= 4.0)`,
and attaches the CSV file (the CSV bytes are elided). -/
def generar_reporte_notas_curso_asignatura_periodo (calificaciones : List Calificacion)
    (evaluaciones : List Evaluacion) (reportes : List ReporteNotasPeriodo)
    (promedios : List PromedioFinal) (cursoId asignaturaId periodoId : Nat)
    (generado_por : Option Nat) : GenerarReporteResult :=
  let qs := calificaciones.filter
    (calificacionEnReporte evaluaciones cursoId asignaturaId periodoId)
  if qs.isEmpty then
    { retorno := none, reportes := reportes, promedios := promedios }
  else
    let actualiza := fun (r : ReporteNotasPeriodo) =>
      match generado_por with
      | some g => { r with generado_por := some g }
      | none => r
    let resultadoReporte : ReporteNotasPeriodo × List ReporteNotasPeriodo :=
      match reportes.find? (fun r => r.curso == cursoId &&
          r.asignatura == asignaturaId && r.periodo == periodoId) with
      | some r =>
          (actualiza r,
           reportes.map (fun x =>
             if x.curso == cursoId && x.asignatura == asignaturaId &&
                 x.periodo == periodoId then actualiza x else x))
      | none =>
          ({ curso := cursoId, asignatura := asignaturaId, periodo := periodoId,
             generado_por := generado_por },
           reportes ++
             [{ curso := cursoId, asignatura := asignaturaId, periodo := periodoId,
                generado_por := generado_por }])
    let promedios2 := ((qs.map (fun c => c.estudiante)).eraseDups).foldl
      (fun acc est =>
        let grupo := qs.filter (fun c => c.estudiante == est)
        let prom := (grupo.map (fun c => c.nota)).sum / grupo.length
        update_or_create_promedio acc est cursoId asignaturaId periodoId prom
          (decide ((4 : ℚ) ≤ prom))) promedios
    { retorno := some resultadoReporte.1, reportes := resultadoReporte.2,
      promedios := promedios2 }

/-- C8: generating the period report for a (course, subject, period) scope
with zero grade records returns `None` and leaves both the report table and
the final-average table untouched. -/
theorem generar_reporte_sin_calificaciones (calificaciones : List Calificacion)
    (evaluaciones : List Evaluacion) (reportes : List ReporteNotasPeriodo)
    (promedios : List PromedioFinal) (cursoId asignaturaId periodoId : Nat)
    (generado_por : Option Nat)
    (h : calificaciones.filter
      (calificacionEnReporte evaluaciones cursoId asignaturaId periodoId) = []) :
    generar_reporte_notas_curso_asignatura_periodo calificaciones evaluaciones reportes
        promedios cursoId asignaturaId periodoId generado_por
      = { retorno := none, reportes := reportes, promedios := promedios } := by
  simp [generar_reporte_notas_curso_asignatura_periodo, h]

/-- C8 witness: a grade exists, but its evaluation lies in a different
course, so the queried scope is empty. -/
theorem generar_reporte_sin_calificaciones_witness :
    ([⟨10, 1, 5⟩] : List Calificacion).filter
        (calificacionEnReporte [⟨10, 9, 3, some 4, 5, "t", 1, 2, none, "PENDIENTE"⟩]
          2 3 5) = [] ∧
    generar_reporte_notas_curso_asignatura_periodo [⟨10, 1, 5⟩]
        [⟨10, 9, 3, some 4, 5, "t", 1, 2, none, "PENDIENTE"⟩] [] [] 2 3 5 (some 7)
      = { retorno := none, reportes := [], promedios := [] } :=
  ⟨by decide,
   generar_reporte_sin_calificaciones [⟨10, 1, 5⟩]
     [⟨10, 9, 3, some 4, 5, "t", 1, 2, none, "PENDIENTE"⟩] [] [] 2 3 5 (some 7)
     (by decide)⟩

/-- Business parameter `UMBRAL_NOTA_BAJA` of `academico/tasks.py`. -/
def UMBRAL_NOTA_BAJA : ℚ := 4

/-- Business parameter `MIN_EVALUACIONES_PARA_ALERTA` of
`academico/tasks.py`. -/
def MIN_EVALUACIONES_PARA_ALERTA : Nat := 3

/-- The grouping key `(estudiante, evaluacion__curso, evaluacion__asignatura)`
of the grade aggregation in `detectar_alertas_tempranas_task` (`None` when
the evaluation FK does not resolve, mirroring the inner join). -/
def claveCalificacion (evaluaciones : List Evaluacion) (c : Calificacion) :
    Option (Nat × Nat × Nat) :=
  match evaluaciones.find? (fun e => e.id == c.evaluacion) with
  | some e => some (c.estudiante, e.curso, e.asignatura)
  | none => none

/-- Membership of a grade in the aggregation group of one key. -/
def calificacionEnGrupoNotas (evaluaciones : List Evaluacion)
    (estudianteId cursoId asignaturaId : Nat) (c : Calificacion) : Bool :=
  claveCalificacion evaluaciones c == some (estudianteId, cursoId, asignaturaId)

/-- The grades aggregated for one (student, course, subject) key. -/
def grupoNotas (calificaciones : List Calificacion) (evaluaciones : List Evaluacion)
    (k : Nat × Nat × Nat) : List Calificacion :=
  calificaciones.filter (calificacionEnGrupoNotas evaluaciones k.1 k.2.1 k.2.2)

/-- The SQL `Avg` of a group of grades. -/
def promedioGrupo (grupo : List Calificacion) : ℚ :=
  (grupo.map (fun c => c.nota)).sum / grupo.length

/-- The low-grade queryset of `detectar_alertas_tempranas_task`
(`academico/tasks.py` lines 104-112): the distinct
(student, course, subject) keys annotated with count and average, kept when
`cantidad >= MIN_EVALUACIONES_PARA_ALERTA` and
`promedio < UMBRAL_NOTA_BAJA`. -/
def registrosNotasBajas (calificaciones : List Calificacion)
    (evaluaciones : List Evaluacion) : List ((Nat × Nat × Nat) × ℚ) :=
  ((calificaciones.filterMap (claveCalificacion evaluaciones)).eraseDups).filterMap
    (fun k =>
      if MIN_EVALUACIONES_PARA_ALERTA ≤ (grupoNotas calificaciones evaluaciones k).length
      then
        if promedioGrupo (grupoNotas calificaciones evaluaciones k) < UMBRAL_NOTA_BAJA
        then some (k, promedioGrupo (grupoNotas calificaciones evaluaciones k))
        else none
      else none)

/-- One iteration of the low-grade loop of `detectar_alertas_tempranas_task`:
skip the key when the student or course lookup fails; otherwise call the
alert service — whose `FieldError` aborts the whole task (the loop has no
handler around that call), the error carrying the alert table as it stood,
since nothing was committed. -/
def pasoDetectarNotas (usuarios : List User) (cursos : List Curso)
    (asignaturas : List Nat) (ahora : Int)
    (acc : Except (String × List AlertaTemprana) (List AlertaTemprana))
    (reg : (Nat × Nat × Nat) × ℚ) :
    Except (String × List AlertaTemprana) (List AlertaTemprana) :=
  match acc with
  | Except.error e => Except.error e
  | Except.ok alertas =>
    match usuarios.find? (fun u => u.id == reg.1.1),
        cursos.find? (fun c => c.id == reg.1.2.1) with
    | some estudiante, some curso =>
        if asignaturas.contains reg.1.2.2 then
          match crear_alerta_temprana_automatizada alertas ahora estudiante curso
              (some reg.1.2.2) "NOTAS" "Promedio inferior al umbral."
              (if reg.2 < 3 then "ALTO" else "MEDIO") none 15 with
          | Except.ok r => Except.ok r.alertas
          | Except.error msg => Except.error (msg, alertas)
        else Except.ok alertas
    | _, _ => Except.ok alertas

/-- The low-grade half of `detectar_alertas_tempranas_task`
(`academico/tasks.py` lines 100-145): iterates the low-average keys with
risk `ALTO` when the average is below 3.0, else `MEDIO` (dedup window 15);
the `FieldError` raised by the alert service propagates out of the task at
the first key whose lookups succeed. -/
def detectar_alertas_por_notas (usuarios : List User) (cursos : List Curso)
    (asignaturas : List Nat) (calificaciones : List Calificacion)
    (evaluaciones : List Evaluacion) (alertas : List AlertaTemprana) (ahora : Int) :
    Except (String × List AlertaTemprana) (List AlertaTemprana) :=
  (registrosNotasBajas calificaciones evaluaciones).foldl
    (pasoDetectarNotas usuarios cursos asignaturas ahora) (Except.ok alertas)

/-- The alert table after the scan: an aborted run keeps exactly the rows
committed before the exception — none are ever committed by this loop. -/
def alertasTrasDetectar
    (r : Except (String × List AlertaTemprana) (List AlertaTemprana)) :
    List AlertaTemprana :=
  match r with
  | Except.ok alertas => alertas
  | Except.error e => e.2

/-- A stored alert of origin NOTAS for one (student, course) pair (the
real `AlertaTemprana` table cannot record the subject). -/
def esAlertaNotasDe (estudianteId cursoId : Nat) (a : AlertaTemprana) : Bool :=
  a.estudiante == estudianteId && a.curso == some cursoId && a.origen == "NOTAS"

lemma registros_claves_suficientes (calificaciones : List Calificacion)
    (evaluaciones : List Evaluacion) (reg : (Nat × Nat × Nat) × ℚ)
    (hreg : reg ∈ registrosNotasBajas calificaciones evaluaciones) :
    MIN_EVALUACIONES_PARA_ALERTA
      ≤ (grupoNotas calificaciones evaluaciones reg.1).length := by
  unfold registrosNotasBajas at hreg
  obtain ⟨k, -, hfk⟩ := List.mem_filterMap.mp hreg
  by_cases h1 : MIN_EVALUACIONES_PARA_ALERTA
      ≤ (grupoNotas calificaciones evaluaciones k).length
  · rw [if_pos h1] at hfk
    by_cases h2 : promedioGrupo (grupoNotas calificaciones evaluaciones k)
        < UMBRAL_NOTA_BAJA
    · rw [if_pos h2] at hfk
      have hk : (k, promedioGrupo (grupoNotas calificaciones evaluaciones k)) = reg :=
        Option.some.inj hfk
      rw [← hk]
      exact h1
    · rw [if_neg h2] at hfk
      cases hfk
  · rw [if_neg h1] at hfk
    cases hfk

lemma paso_notas_estado (usuarios : List User) (cursos : List Curso)
    (asignaturas : List Nat) (ahora : Int)
    (acc : Except (String × List AlertaTemprana) (List AlertaTemprana))
    (reg : (Nat × Nat × Nat) × ℚ) :
    alertasTrasDetectar (pasoDetectarNotas usuarios cursos asignaturas ahora acc reg)
      = alertasTrasDetectar acc := by
  cases acc with
  | error e => rfl
  | ok alertas =>
    unfold pasoDetectarNotas
    cases usuarios.find? (fun u => u.id == reg.1.1) with
    | none => rfl
    | some estudiante =>
      cases cursos.find? (fun c => c.id == reg.1.2.1) with
      | none => rfl
      | some curso =>
        show alertasTrasDetectar (
            if asignaturas.contains reg.1.2.2 then
              (Except.error
                ("FieldError: Cannot resolve keyword asignatura into field", alertas) :
                Except (String × List AlertaTemprana) (List AlertaTemprana))
            else Except.ok alertas)
          = alertasTrasDetectar (Except.ok alertas)
        by_cases hasig : asignaturas.contains reg.1.2.2 = true
        · rw [if_pos hasig]
          rfl
        · rw [if_neg hasig]

lemma detectar_no_modifica (usuarios : List User) (cursos : List Curso)
    (asignaturas : List Nat) (calificaciones : List Calificacion)
    (evaluaciones : List Evaluacion) (alertas : List AlertaTemprana) (ahora : Int) :
    alertasTrasDetectar (detectar_alertas_por_notas usuarios cursos asignaturas
      calificaciones evaluaciones alertas ahora) = alertas := by
  suffices h : ∀ (registros : List ((Nat × Nat × Nat) × ℚ))
      (acc : Except (String × List AlertaTemprana) (List AlertaTemprana)),
      alertasTrasDetectar (registros.foldl
        (pasoDetectarNotas usuarios cursos asignaturas ahora) acc)
        = alertasTrasDetectar acc by
    exact h (registrosNotasBajas calificaciones evaluaciones) (Except.ok alertas)
  intro registros
  induction registros with
  | nil => intro acc; rfl
  | cons reg rest ih =>
    intro acc
    rw [List.foldl_cons, ih, paso_notas_estado]

/-- C5: a (student, course, subject) scope with strictly fewer than
`MIN_EVALUACIONES_PARA_ALERTA` (3) recorded grades triggers no NOTAS alert
in the grade-based alert scan, regardless of its average: the minimum
sample-size gate keeps the scope out of the low-grade aggregation, and the
stored NOTAS alerts for that student and course after the scan are exactly
those already present before it. -/
theorem notas_insuficientes_sin_alerta (usuarios : List User) (cursos : List Curso)
    (asignaturas : List Nat) (calificaciones : List Calificacion)
    (evaluaciones : List Evaluacion) (alertas : List AlertaTemprana) (ahora : Int)
    (est c a : Nat)
    (hcount : (grupoNotas calificaciones evaluaciones (est, c, a)).length
      < MIN_EVALUACIONES_PARA_ALERTA) :
    (∀ reg ∈ registrosNotasBajas calificaciones evaluaciones,
      reg.1 ≠ ((est, c, a) : Nat × Nat × Nat)) ∧
    (alertasTrasDetectar (detectar_alertas_por_notas usuarios cursos asignaturas
        calificaciones evaluaciones alertas ahora)).filter (esAlertaNotasDe est c)
      = alertas.filter (esAlertaNotasDe est c) := by
  constructor
  · intro reg hreg hEq
    have hsuf := registros_claves_suficientes calificaciones evaluaciones reg hreg
    rw [hEq] at hsuf
    exact absurd hsuf (not_le.mpr hcount)
  · rw [detectar_no_modifica]

/-- C5 witness: a student with exactly two grades (both 2.0, average well
below the threshold) in a (course, subject) scope: the gate excludes the
scope and the stored NOTAS alerts for that student and course are
untouched. -/
theorem notas_insuficientes_sin_alerta_witness :
    (grupoNotas [⟨10, 1, 2⟩, ⟨11, 1, 2⟩]
        [⟨10, 2, 3, some 4, 5, "t", 1, 2, none, "PENDIENTE"⟩,
         ⟨11, 2, 3, some 4, 5, "t", 1, 2, none, "PENDIENTE"⟩] (1, 2, 3)).length
      < MIN_EVALUACIONES_PARA_ALERTA ∧
    ((∀ reg ∈ registrosNotasBajas [⟨10, 1, 2⟩, ⟨11, 1, 2⟩]
        [⟨10, 2, 3, some 4, 5, "t", 1, 2, none, "PENDIENTE"⟩,
         ⟨11, 2, 3, some 4, 5, "t", 1, 2, none, "PENDIENTE"⟩],
      reg.1 ≠ ((1, 2, 3) : Nat × Nat × Nat)) ∧
    (alertasTrasDetectar (detectar_alertas_por_notas [⟨1, "Ana", "Perez", "", []⟩]
        [⟨2, "7A", none, [1]⟩] [3] [⟨10, 1, 2⟩, ⟨11, 1, 2⟩]
        [⟨10, 2, 3, some 4, 5, "t", 1, 2, none, "PENDIENTE"⟩,
         ⟨11, 2, 3, some 4, 5, "t", 1, 2, none, "PENDIENTE"⟩] [] 0)).filter
        (esAlertaNotasDe 1 2)
      = ([] : List AlertaTemprana).filter (esAlertaNotasDe 1 2)) :=
  ⟨by decide,
   notas_insuficientes_sin_alerta [⟨1, "Ana", "Perez", "", []⟩] [⟨2, "7A", none, [1]⟩]
     [3] [⟨10, 1, 2⟩, ⟨11, 1, 2⟩]
     [⟨10, 2, 3, some 4, 5, "t", 1, 2, none, "PENDIENTE"⟩,
      ⟨11, 2, 3, some 4, 5, "t", 1, 2, none, "PENDIENTE"⟩] [] 0 1 2 3 (by decide)⟩

end GestionEscolar
